import Mathlib

/-!
Shallow embedding of `src/domain/src/lib.rs` (support-scheduler domain crate).

Dates: chrono `NaiveDate` values are embedded as their serial day number
(days since 1970-01-01, which was a Thursday).  `chrono::Utc::now().date_naive()`
is an input read from the wall clock in the source; in the embedding it is
passed explicitly as a `today` argument to the functions that read it.
Rust `i64` arithmetic never overflows in the reachable range, so `Int` is used;
Rust `%` and `/` on `i64` are truncated (`Int.tmod` / `Int.tdiv`).
Rust `a % 0` panics at runtime; that outcome is modelled by `Outcome.panicked`.
-/

/-- Serial day number of chrono `NaiveDate::MIN` (January 1, -262143) measured
from 1970-01-01; `NaiveDate::checked_sub_days` returns `None` below it. -/
def chronoMinDay : Int := -96465292

/-- `pub struct DomainError { pub message: String }`. -/
structure DomainError where
  message : String
deriving DecidableEq

/-- Result of running a fallible Rust function: `Ok`, a returned `DomainError`,
or a runtime panic (the source can panic on `% 0`). -/
inductive Outcome (α : Type) where
  | ok : α → Outcome α
  | err : DomainError → Outcome α
  | panicked : Outcome α
deriving DecidableEq

/-- `DomainError::date_is_out_of_range()`. -/
def DomainError.date_is_out_of_range : DomainError :=
  { message := "date is out of range" }

/-- `DomainError::no_engineer_found()`. -/
def DomainError.no_engineer_found : DomainError :=
  { message := "no engineer found" }

/-- The error built inline in `AppDate::number_of_days_from_today`
(source text: "Can not tell you who served in the past!", apostrophe elided). -/
def DomainError.invalid_query : DomainError :=
  { message := "Cant tell you who served in the past!" }

/-- `pub struct AppDate { value: NaiveDate }`, with `NaiveDate` as serial day. -/
structure AppDate where
  value : Int
deriving DecidableEq

/-- `AppDate::is_business_day`: `weekday() != Sat && weekday() != Sun`.
Day 0 (1970-01-01) is a Thursday, so `(value + 4).emod 7` is the weekday
with 0 = Sunday, …, 4 = Thursday, 5 = Friday, 6 = Saturday. -/
def AppDate.is_business_day (self : AppDate) : Bool :=
  decide ((self.value + 4) % 7 ≠ 6) && decide ((self.value + 4) % 7 ≠ 0)

/-- `AppDate::number_of_days_from_today`: the source computes
`self.value - chrono::Utc::now().date_naive()`; the clock read is the
explicit `today` argument here. -/
def AppDate.number_of_days_from_today (self : AppDate) (today : AppDate) :
    Outcome Int :=
  let days_delta := self.value - today.value
  if days_delta > 0 then .ok days_delta
  else .err DomainError.invalid_query

/-- `AppDate::number_of_days_to_go_back`.  Rust `i64 % 0` panics, hence the
explicit zero-divisor case; otherwise `%` on `i64` is `Int.tmod`. -/
def AppDate.number_of_days_to_go_back (self : AppDate) (today : AppDate)
    (rota_length_in_days : Int) : Outcome Int :=
  match self.number_of_days_from_today today with
  | .ok number_of_days_from_today =>
      if rota_length_in_days = 0 then .panicked
      else
        let number_of_days_to_complete_rota :=
          Int.tmod number_of_days_from_today rota_length_in_days
        .ok (rota_length_in_days - number_of_days_to_complete_rota)
  | .err e => .err e
  | .panicked => .panicked

/-- `AppDate::go_back_n_days`: `checked_sub_days(Days::new(n as u64))`.
A negative `i64` cast `as u64` exceeds the date range (so the checked
subtraction fails), as does any result below `NaiveDate::MIN`. -/
def AppDate.go_back_n_days (self : AppDate) (number_of_days_to_go_back : Int) :
    Outcome AppDate :=
  if number_of_days_to_go_back < 0 then .err DomainError.date_is_out_of_range
  else if self.value - number_of_days_to_go_back < chronoMinDay then
    .err DomainError.date_is_out_of_range
  else .ok ⟨self.value - number_of_days_to_go_back⟩

/-- `AppDate::go_back_to_nearest_business_day`: one fixed two-day adjustment
when the stepped-back date is not a business day, not a loop. -/
def AppDate.go_back_to_nearest_business_day (self : AppDate)
    (number_of_days_to_go_back : Int) : Outcome AppDate :=
  match self.go_back_n_days number_of_days_to_go_back with
  | .ok n_days_ago =>
      if n_days_ago.is_business_day then .ok n_days_ago
      else n_days_ago.go_back_n_days 2
  | .err e => .err e
  | .panicked => .panicked

/-- `pub struct Rota { length_in_days: i64 }`. -/
structure Rota where
  length_in_days : Int
deriving DecidableEq

/-- `Rota::new`. -/
def Rota.new (length_in_days : Int) : Rota :=
  { length_in_days := length_in_days }

/-- `AppDate::last_date_served_by_engineer`. -/
def AppDate.last_date_served_by_engineer (self : AppDate) (today : AppDate)
    (rota : Rota) : Outcome AppDate :=
  match self.number_of_days_to_go_back today rota.length_in_days with
  | .ok number_of_days_to_go_back =>
      self.go_back_to_nearest_business_day number_of_days_to_go_back
  | .err e => .err e
  | .panicked => .panicked

/-- `enum TodayStrategy`. -/
inductive TodayStrategy where
  | OSDate
  | Thursday
  | Friday
  | Weekend
deriving DecidableEq

/-- `TodayStrategy::execute`: `OSDate` reads `Utc::now()` (the explicit `now`
argument here); the other variants are fixed 2022-12 dates
(2022-12-15 = day 19341, 2022-12-16 = 19342, 2022-12-18 = 19344). -/
def TodayStrategy.execute (self : TodayStrategy) (now : AppDate) : AppDate :=
  match self with
  | .OSDate => now
  | .Thursday => ⟨19341⟩
  | .Friday => ⟨19342⟩
  | .Weekend => ⟨19344⟩

/-- `pub struct EngineerIdentifier { pub value: Uuid }` (Uuid kept opaque). -/
structure EngineerIdentifier where
  value : Nat
deriving DecidableEq

/-- `pub struct Engineer`. -/
structure Engineer where
  name : String
  identifier : EngineerIdentifier
  last_time_served : AppDate
  today_strategy : TodayStrategy
deriving DecidableEq

/-- `Engineer::new` (always installs `TodayStrategy::OSDate`). -/
def Engineer.new (name : String) (identifier : EngineerIdentifier)
    (last_time_served : AppDate) : Engineer :=
  { name := name, identifier := identifier,
    last_time_served := last_time_served, today_strategy := .OSDate }

/-- `HashMap<AppDate, Engineer>` modelled as an association list where keys
are unique; inserting an existing key replaces its value. -/
abbrev DateMap := List (AppDate × Engineer)

/-- `HashMap::get`. -/
def DateMap.get (m : DateMap) (k : AppDate) : Option Engineer :=
  (List.find? (fun p => decide (p.1 = k)) m).map (fun p => p.2)

/-- `HashMap` insertion (used to model `collect`): a later binding for an
existing key overwrites the earlier one. -/
def DateMap.insert (m : DateMap) (k : AppDate) (v : Engineer) : DateMap :=
  if List.any m (fun p => decide (p.1 = k)) then
    List.map (fun p => if p.1 = k then (k, v) else p) m
  else m ++ [(k, v)]

/-- `pub struct EngineeringDepartment`. -/
structure EngineeringDepartment where
  engineer_serving_support_today : Option Engineer
  engineers_by_last_date_served : DateMap
  reservations_for_month : DateMap
  rota : Rota

/-- `EngineeringDepartment::engineers_by_last_date_served` (static): the
iterator `collect` into a `HashMap`, keyed by each engineer's
`last_time_served`; duplicates silently overwrite. -/
def EngineeringDepartment.engineers_by_last_date_served_of
    (engineers : List Engineer) : DateMap :=
  List.foldl (fun m e => DateMap.insert m e.last_time_served e) [] engineers

/-- `EngineeringDepartment::rota` (static):
`len / 5 * 2 + len` in truncated `i64` arithmetic. -/
def EngineeringDepartment.rota_for (engineers : List Engineer) : Rota :=
  let number_of_engineers : Int := engineers.length
  let number_of_business_days_in_a_week : Int := 5
  let number_of_days_in_weekend : Int := 2
  Rota.new (Int.tdiv number_of_engineers number_of_business_days_in_a_week *
      number_of_days_in_weekend + number_of_engineers)

/-- `EngineeringDepartment::new`. -/
def EngineeringDepartment.new (engineers : List Engineer)
    (engineer_serving_support_today : Option Engineer)
    (reservations_for_month : DateMap) : EngineeringDepartment :=
  { engineer_serving_support_today := engineer_serving_support_today,
    engineers_by_last_date_served :=
      EngineeringDepartment.engineers_by_last_date_served_of engineers,
    reservations_for_month := reservations_for_month,
    rota := EngineeringDepartment.rota_for engineers }

/-- `EngineeringDepartment::compute_engineer_serving_on_date`; `today` is the
wall-clock value the source reads inside `number_of_days_from_today`. -/
def EngineeringDepartment.compute_engineer_serving_on_date
    (self : EngineeringDepartment) (date : AppDate) (today : AppDate) :
    Outcome Engineer :=
  match date.last_date_served_by_engineer today self.rota with
  | .ok last_date_served_by_engineer =>
      match DateMap.get self.engineers_by_last_date_served
          last_date_served_by_engineer with
      | some e => .ok e
      | none => .err DomainError.no_engineer_found
  | .err e => .err e
  | .panicked => .panicked

/-- `EngineeringDepartment::engineer_serving_on_date`. -/
def EngineeringDepartment.engineer_serving_on_date
    (self : EngineeringDepartment) (date : AppDate) (today : AppDate) :
    Outcome Engineer :=
  match DateMap.get self.reservations_for_month date with
  | some engineer => .ok engineer
  | none => self.compute_engineer_serving_on_date date today

/-- Modelled from the spec: `NotABusinessDay` error; the source has no such
error (`record_service` is the `todo!()` stub
`EngineeringDepartment::mark_support_service_for_engineer`). -/
def DomainError.not_a_business_day : DomainError :=
  { message := "not a business day" }

/-- Modelled from the spec: `DuplicateLastServedDate` error (absent from the
source for the same reason). -/
def DomainError.duplicate_last_served_date : DomainError :=
  { message := "duplicate last served date" }

/-- Modelled from the spec: `record_service(engineer, service_date)` — the
source only declares the `todo!()` stubs `Engineer::serve_support` and
`EngineeringDepartment::mark_support_service_for_engineer`.  Per spec §4.4:
fail with `NotABusinessDay` when `service_date` is not a business day;
otherwise set the engineer's `last_served` to `service_date` and update the
reverse index (old entry removed, new entry inserted only if not already
occupied — `DuplicateLastServedDate` otherwise). -/
def EngineeringDepartment.record_service (self : EngineeringDepartment)
    (engineer : Engineer) (service_date : AppDate) :
    Outcome EngineeringDepartment :=
  if !service_date.is_business_day then .err DomainError.not_a_business_day
  else
    let removed := List.filter
      (fun p => !(decide (p.1 = engineer.last_time_served)))
      self.engineers_by_last_date_served
    match DateMap.get removed service_date with
    | some _ => .err DomainError.duplicate_last_served_date
    | none =>
        .ok { self with engineers_by_last_date_served :=
          removed ++ [(service_date,
            { engineer with last_time_served := service_date })] }

/-! ## Helper lemmas -/

/-- A non-business day is a Saturday or Sunday, and two days earlier is a
Thursday or Friday, hence a business day. -/
theorem is_business_day_of_step_two (d : Int)
    (h : (AppDate.mk d).is_business_day = false) :
    (AppDate.mk (d - 2)).is_business_day = true := by
  simp only [AppDate.is_business_day, Bool.and_eq_false_iff,
    decide_eq_false_iff_not, not_not, Bool.and_eq_true, decide_eq_true_eq] at h ⊢
  omega

/-- For a strictly future date the day count is returned. -/
theorem number_of_days_from_today_of_future (D t : Int) (hD : t < D) :
    AppDate.number_of_days_from_today ⟨D⟩ ⟨t⟩ = .ok (D - t) := by
  simp only [AppDate.number_of_days_from_today]
  rw [if_pos (by omega : D - t > 0)]

/-- With a future date and a nonzero rota length, the step-back count is
`L - ((D - today) tmod L)`. -/
theorem number_of_days_to_go_back_eq (D t L : Int) (hD : t < D) (hL : L ≠ 0) :
    AppDate.number_of_days_to_go_back ⟨D⟩ ⟨t⟩ L =
      .ok (L - Int.tmod (D - t) L) := by
  simp only [AppDate.number_of_days_to_go_back,
    number_of_days_from_today_of_future D t hD]
  rw [if_neg hL]

/-- In-range backward stepping subtracts the day count. -/
theorem go_back_n_days_eq (d n : Int) (h0 : 0 ≤ n)
    (hmin : chronoMinDay ≤ d - n) :
    AppDate.go_back_n_days ⟨d⟩ n = .ok ⟨d - n⟩ := by
  simp only [AppDate.go_back_n_days]
  rw [if_neg (by omega : ¬n < 0), if_neg (by omega : ¬d - n < chronoMinDay)]

/-- The business-day snap is a single conditional two-day adjustment. -/
theorem go_back_to_nearest_business_day_eq (d n : Int) (h0 : 0 ≤ n)
    (hmin : chronoMinDay ≤ d - n - 2) :
    AppDate.go_back_to_nearest_business_day ⟨d⟩ n =
      (if (AppDate.mk (d - n)).is_business_day then Outcome.ok ⟨d - n⟩
       else Outcome.ok ⟨d - n - 2⟩) := by
  simp only [AppDate.go_back_to_nearest_business_day,
    go_back_n_days_eq d n h0 (by omega)]
  by_cases hb : (AppDate.mk (d - n)).is_business_day
  · rw [if_pos hb, if_pos hb]
  · rw [if_neg hb, if_neg hb]
    exact go_back_n_days_eq (d - n) 2 (by omega) (by omega)

/-- Closed form of `AppDate::last_date_served_by_engineer` for a positive rota
length and a strictly future query date (away from the calendar minimum). -/
theorem resolver_characterization (D t L : Int) (hL : 0 < L) (hD : t < D)
    (hrange : chronoMinDay ≤ D - L - 2) :
    AppDate.last_date_served_by_engineer ⟨D⟩ ⟨t⟩ (Rota.mk L) =
      (if (AppDate.mk (D - (L - Int.tmod (D - t) L))).is_business_day
       then Outcome.ok ⟨D - (L - Int.tmod (D - t) L)⟩
       else Outcome.ok ⟨D - (L - Int.tmod (D - t) L) - 2⟩) := by
  have hm0 : 0 ≤ Int.tmod (D - t) L := by
    rw [Int.tmod_eq_emod (by omega) (le_of_lt hL)]
    exact Int.emod_nonneg _ (ne_of_gt hL)
  have hmL : Int.tmod (D - t) L < L := by
    rw [Int.tmod_eq_emod (by omega) (le_of_lt hL)]
    exact Int.emod_lt_of_pos _ hL
  simp only [AppDate.last_date_served_by_engineer,
    number_of_days_to_go_back_eq D t L hD (ne_of_gt hL)]
  exact go_back_to_nearest_business_day_eq D (L - Int.tmod (D - t) L)
    (by omega) (by omega)

/-- The remainder of a positive dividend by a positive divisor is in `[0, L)`.
Shared bound used below. -/
theorem tmod_bounds (a L : Int) (ha : 0 < a) (hL : 0 < L) :
    0 ≤ Int.tmod a L ∧ Int.tmod a L < L := by
  rw [Int.tmod_eq_emod (by omega) (le_of_lt hL)]
  exact ⟨Int.emod_nonneg _ (ne_of_gt hL), Int.emod_lt_of_pos _ hL⟩

/-! ## Claims -/

/-- C1: for every rotation length L > 0 and query date D strictly after the
supplied today (with the step-backs in calendar range), the resolver returns
D stepped back by `L - ((D - today) mod L)` days when that candidate is a
business day, and by exactly 2 further days otherwise — a single fixed
adjustment, not a loop. -/
theorem rotation_reference_date_formula (D t L : Int) (hL : 0 < L)
    (hD : t < D) (hrange : chronoMinDay ≤ D - L - 2) :
    AppDate.last_date_served_by_engineer ⟨D⟩ ⟨t⟩ (Rota.mk L) =
      (if (AppDate.mk (D - (L - Int.tmod (D - t) L))).is_business_day
       then Outcome.ok ⟨D - (L - Int.tmod (D - t) L)⟩
       else Outcome.ok ⟨D - (L - Int.tmod (D - t) L) - 2⟩) :=
  resolver_characterization D t L hL hD hrange

/-- Witness for C1: today = 2022-12-15 (day 19341), D = 2022-12-22 (19348),
L = 7 gives reference date 2022-12-15. -/
theorem rotation_reference_date_formula_witness :
    AppDate.last_date_served_by_engineer ⟨19348⟩ ⟨19341⟩ (Rota.mk 7) =
      Outcome.ok ⟨19341⟩ := by
  rw [rotation_reference_date_formula 19348 19341 7 (by decide) (by decide)
    (by decide)]
  decide

/-- C4: for every rotation length L > 0 and query date D strictly after today
(in calendar range), the resolver succeeds with a business day strictly
earlier than D. -/
theorem reference_date_is_business_day_before_query (D t L : Int) (hL : 0 < L)
    (hD : t < D) (hrange : chronoMinDay ≤ D - L - 2) :
    ∃ r : AppDate,
      AppDate.last_date_served_by_engineer ⟨D⟩ ⟨t⟩ (Rota.mk L) = Outcome.ok r ∧
      r.is_business_day = true ∧ r.value ≤ D - 1 := by
  have hm := tmod_bounds (D - t) L (by omega) hL
  rw [resolver_characterization D t L hL hD hrange]
  by_cases hb : (AppDate.mk (D - (L - Int.tmod (D - t) L))).is_business_day
  · exact ⟨⟨D - (L - Int.tmod (D - t) L)⟩, by rw [if_pos hb], hb,
      by show D - (L - Int.tmod (D - t) L) ≤ D - 1; omega⟩
  · refine ⟨⟨D - (L - Int.tmod (D - t) L) - 2⟩, by rw [if_neg hb], ?_,
      by show D - (L - Int.tmod (D - t) L) - 2 ≤ D - 1; omega⟩
    exact is_business_day_of_step_two _ (Bool.not_eq_true _ ▸ Bool.of_not_eq_true hb)

/-- Witness for C4 at today = 19341, D = 19348, L = 7. -/
theorem reference_date_is_business_day_before_query_witness :
    ∃ r : AppDate,
      AppDate.last_date_served_by_engineer ⟨19348⟩ ⟨19341⟩ (Rota.mk 7) =
        Outcome.ok r ∧ r.is_business_day = true ∧ r.value ≤ 19348 - 1 :=
  reference_date_is_business_day_before_query 19348 19341 7 (by decide)
    (by decide) (by decide)

/-- C3: a query date equal to or earlier than the supplied today is rejected
with the invalid-query error, and the check passes exactly when the date is
strictly in the future. -/
theorem non_future_query_rejected (d t : Int) (rota : Rota) :
    (AppDate.number_of_days_from_today ⟨d⟩ ⟨t⟩ =
        Outcome.err DomainError.invalid_query ↔ d ≤ t)
  ∧ (t < d → AppDate.number_of_days_from_today ⟨d⟩ ⟨t⟩ = Outcome.ok (d - t))
  ∧ (d ≤ t → AppDate.last_date_served_by_engineer ⟨d⟩ ⟨t⟩ rota =
        Outcome.err DomainError.invalid_query) := by
  by_cases h : d - t > 0
  · refine ⟨?_, fun _ => number_of_days_from_today_of_future d t (by omega),
      fun hc => absurd hc (by omega)⟩
    rw [number_of_days_from_today_of_future d t (by omega)]
    simp
    omega
  · have herr : AppDate.number_of_days_from_today ⟨d⟩ ⟨t⟩ =
        Outcome.err DomainError.invalid_query := by
      simp only [AppDate.number_of_days_from_today]
      rw [if_neg h]
    refine ⟨by rw [herr]; simp; omega, fun hc => absurd hc (by omega), fun _ => ?_⟩
    simp only [AppDate.last_date_served_by_engineer,
      AppDate.number_of_days_to_go_back, herr]

/-- Witness for C3: querying today itself (2022-12-15) fails. -/
theorem non_future_query_rejected_witness :
    AppDate.last_date_served_by_engineer ⟨19341⟩ ⟨19341⟩ (Rota.mk 7) =
      Outcome.err DomainError.invalid_query :=
  (non_future_query_rejected 19341 19341 (Rota.mk 7)).2.2 (by decide)

/-- C5: the rotation length is `floor(n / 5) * 2 + n` for a roster of n
engineers; in particular 5 engineers give length 7. -/
theorem rota_length_formula (engineers : List Engineer) :
    (EngineeringDepartment.rota_for engineers).length_in_days =
      ((engineers.length / 5 * 2 + engineers.length : Nat) : Int)
  ∧ (engineers.length = 5 →
      (EngineeringDepartment.rota_for engineers).length_in_days = 7) := by
  have h1 : (EngineeringDepartment.rota_for engineers).length_in_days =
      ((engineers.length / 5 * 2 + engineers.length : Nat) : Int) := by
    simp only [EngineeringDepartment.rota_for, Rota.new]
    rfl
  exact ⟨h1, fun h5 => by rw [h1, h5]; decide⟩

/-- Witness for C5: a concrete roster of 5 engineers yields rotation length 7. -/
theorem rota_length_formula_witness :
    (EngineeringDepartment.rota_for
      [Engineer.new "a" ⟨1⟩ ⟨19341⟩, Engineer.new "b" ⟨2⟩ ⟨19340⟩,
       Engineer.new "c" ⟨3⟩ ⟨19339⟩, Engineer.new "d" ⟨4⟩ ⟨19338⟩,
       Engineer.new "e" ⟨5⟩ ⟨19337⟩]).length_in_days = 7 :=
  (rota_length_formula _).2 (by decide)

/-- C2: for every roster and every query date, a date with an explicit
reservation returns the reserved engineer unconditionally (the code
short-circuits before the resolver runs); otherwise, when the resolver
yields reference date `refd`, the result is the engineer indexed under
`refd`, failing with the no-engineer-found error exactly when the index has
no entry for `refd`. -/
theorem engineer_serving_on_date_lookup (self : EngineeringDepartment)
    (date today : AppDate) :
    (∀ e, DateMap.get self.reservations_for_month date = some e →
      self.engineer_serving_on_date date today = Outcome.ok e)
  ∧ (DateMap.get self.reservations_for_month date = none →
      ∀ refd, date.last_date_served_by_engineer today self.rota =
          Outcome.ok refd →
        self.engineer_serving_on_date date today =
          (match DateMap.get self.engineers_by_last_date_served refd with
           | some e => Outcome.ok e
           | none => Outcome.err DomainError.no_engineer_found)) := by
  constructor
  · intro e he
    simp only [EngineeringDepartment.engineer_serving_on_date, he]
  · intro hnone refd href
    simp only [EngineeringDepartment.engineer_serving_on_date,
      EngineeringDepartment.compute_engineer_serving_on_date, hnone, href]

/-- Witness for C2, both branches.  First: the reserved engineer is returned
even for a reserved date equal to today on an empty roster (rotation length 0),
where the resolver could never succeed.  Second: a one-engineer roster (last
served 2022-12-15, rotation length 1) queried for 2022-12-22 resolves to
reference date 2022-12-21, which no engineer matches, so the lookup fails
with no-engineer-found. -/
theorem engineer_serving_on_date_lookup_witness :
    (EngineeringDepartment.new [] none
      [(⟨19341⟩, Engineer.new "b" ⟨2⟩ ⟨19300⟩)]).engineer_serving_on_date
        ⟨19341⟩ ⟨19341⟩ = Outcome.ok (Engineer.new "b" ⟨2⟩ ⟨19300⟩)
  ∧ (EngineeringDepartment.new [Engineer.new "a" ⟨1⟩ ⟨19341⟩] none
      []).engineer_serving_on_date ⟨19348⟩ ⟨19341⟩ =
      Outcome.err DomainError.no_engineer_found := by
  constructor
  · exact (engineer_serving_on_date_lookup
      (EngineeringDepartment.new [] none
        [(⟨19341⟩, Engineer.new "b" ⟨2⟩ ⟨19300⟩)]) ⟨19341⟩ ⟨19341⟩).1
      (Engineer.new "b" ⟨2⟩ ⟨19300⟩) (by decide)
  · rw [(engineer_serving_on_date_lookup
      (EngineeringDepartment.new [Engineer.new "a" ⟨1⟩ ⟨19341⟩] none [])
      ⟨19348⟩ ⟨19341⟩).2 (by decide) ⟨19347⟩ (by decide)]
    decide

/-- C6 (code evidence): an empty roster yields rotation length 0, and resolving
any strictly future date then reaches `days % 0`, which panics in Rust; no
degenerate-rotation error exists in the code. -/
theorem zero_rotation_hits_remainder_by_zero :
    (EngineeringDepartment.rota_for []).length_in_days = 0 ∧
    AppDate.last_date_served_by_engineer ⟨19348⟩ ⟨19341⟩
      (EngineeringDepartment.rota_for []) = Outcome.panicked := by
  decide

/-- C7 (code evidence): constructing a department from two distinct engineers
sharing last-served date 2022-12-15 succeeds, silently keeping only the second
engineer in the reverse index — no duplicate-last-served-date failure. -/
theorem duplicate_last_served_silently_collapsed :
    (EngineeringDepartment.new
      [Engineer.new "a" ⟨1⟩ ⟨19341⟩, Engineer.new "b" ⟨2⟩ ⟨19341⟩] none
      []).engineers_by_last_date_served =
        [(⟨19341⟩, Engineer.new "b" ⟨2⟩ ⟨19341⟩)]
  ∧ Engineer.new "a" ⟨1⟩ ⟨19341⟩ ≠ Engineer.new "b" ⟨2⟩ ⟨19341⟩ := by
  decide

/-- C8 (modelled from the spec, the source method is a `todo!()` stub):
recording service on a non-business day fails with the not-a-business-day
error, producing no updated roster. -/
theorem record_service_rejects_non_business_day
    (self : EngineeringDepartment) (e : Engineer) (service_date : AppDate)
    (h : service_date.is_business_day = false) :
    self.record_service e service_date =
      Outcome.err DomainError.not_a_business_day := by
  simp only [EngineeringDepartment.record_service, h, Bool.not_false, if_true]

/-- Witness for C8: recording service on Saturday 2022-12-17 fails. -/
theorem record_service_rejects_non_business_day_witness :
    (EngineeringDepartment.new [] none []).record_service
      (Engineer.new "a" ⟨1⟩ ⟨19341⟩) ⟨19343⟩ =
      Outcome.err DomainError.not_a_business_day :=
  record_service_rejects_non_business_day
    (EngineeringDepartment.new [] none [])
    (Engineer.new "a" ⟨1⟩ ⟨19341⟩) ⟨19343⟩ (by decide)

/-- C9 (code evidence): the value the source reads from `chrono::Utc::now()`
inside `number_of_days_from_today` (the explicit `today` argument of the
embedding) changes the outcome of resolution, so the wall-clock read is
semantically significant. -/
theorem resolution_depends_on_wall_clock :
    AppDate.number_of_days_from_today ⟨19348⟩ ⟨19341⟩ ≠
    AppDate.number_of_days_from_today ⟨19348⟩ ⟨19348⟩ := by
  decide

/-- C10: the `engineer_serving_support_today` constructor argument has no
effect on any query: two departments built from the same engineer list and
reservation map but different values of it answer every date identically. -/
theorem engineer_serving_support_today_is_ignored (engineers : List Engineer)
    (o1 o2 : Option Engineer) (resv : DateMap) (d t : AppDate) :
    (EngineeringDepartment.new engineers o1 resv).engineer_serving_on_date d t =
    (EngineeringDepartment.new engineers o2 resv).engineer_serving_on_date d t :=
  rfl
